import Mathlib

/-!
Verification of the state-replication / procedural-texture core of
AlloSketch (src/main.cpp).  Real arithmetic of the C++ code is embedded
over `ℚ`; the transcendental primitives (`sin`, `cos`, `sqrt`, `atan2`)
and the constant `π` are abstracted into a structure of function
parameters, so every definition stays executable and every property that
holds for all values of those primitives (determinism, clamping,
cadence, indexing) is proved for the actual code structure.
-/

namespace AlloSketch

/-- Abstract math primitives used by `MyApp::generateTextureData`
(`sin`, `cos`, `sqrt`, `atan2` from `<cmath>` and the constant `M_PI`). -/
structure MathPrims where
  sin : ℚ → ℚ
  cos : ℚ → ℚ
  sqrt : ℚ → ℚ
  atan2 : ℚ → ℚ → ℚ
  pi : ℚ

/-- The POD `TextureState` struct (main.cpp lines 34-40): animation time,
rotation angle, raw RGB texture bytes, update flag, frame counter.
`textureData` is modelled as the row-major list of bytes; `frameCounter`
is a C `int`, modelled as `ℤ`. -/
structure TextureState where
  time : ℚ
  angle : ℚ
  textureData : List ℕ
  textureNeedsUpdate : Bool
  frameCounter : ℤ
deriving DecidableEq

/-- Size of the texture payload: `TEX_WIDTH * TEX_HEIGHT * 3` (line 31),
with the dimensions kept as parameters. -/
def texSize (w h : ℕ) : ℕ := w * h * 3

/-- The base index of pixel `(x, y)`: `(y * TEX_WIDTH + x) * 3` (line 93). -/
def texIndex (w x y : ℕ) : ℕ := (y * w + x) * 3

/-- The clamp `fmax(0.0f, fmin(1.0f, v))` applied to each channel
(lines 123-125). -/
def clamp01 (v : ℚ) : ℚ := max 0 (min 1 v)

/-- The quantization `(unsigned char)(v * 255.0f)` (lines 127-129):
multiplication by 255 and truncation toward zero (the argument is
nonnegative at every use site, so truncation is the floor). -/
def toByte (v : ℚ) : ℕ := ⌊v * 255⌋.toNat

/-- Clamp and quantize the three channel values of one pixel
(lines 122-129). -/
def rgbBytes (r g b : ℚ) : ℕ × ℕ × ℕ :=
  (toByte (clamp01 r), toByte (clamp01 g), toByte (clamp01 b))

/-- The per-pixel body of `MyApp::generateTextureData` (lines 93-129),
transcribed literally: normalized coordinates, rotation by
`angle * M_PI / 180`, the two waves, radial distance, ripple, spiral
pattern, channel combination, frame-counter noise, clamp and quantize. -/
def pixelBytes (P : MathPrims) (w h : ℕ) (t angle : ℚ) (fc : ℤ) (x y : ℕ) :
    ℕ × ℕ × ℕ :=
  let rot := angle * P.pi / 180
  let nx : ℚ := ((x : ℚ) / ((w : ℚ) - 1)) * 2 - 1
  let ny : ℚ := ((y : ℚ) / ((h : ℚ) - 1)) * 2 - 1
  let rx := nx * P.cos rot - ny * P.sin rot
  let ry := nx * P.sin rot + ny * P.cos rot
  let wave1 := P.sin (rx * 8 + t * 2) * (1/2) + 1/2
  let wave2 := P.cos (ry * 6 + t * (3/2)) * (1/2) + 1/2
  let radial := P.sqrt (rx * rx + ry * ry)
  let ripple := P.sin (radial * 10 - t * 4) * (1/2) + 1/2
  let spiral := P.atan2 ry rx + radial * 3 - t * 2
  let spiralPattern := P.sin spiral * (1/2) + 1/2
  let r := wave1 * ripple * spiralPattern
  let g := wave2 * (1 - radial * (3/10))
  let b := (wave1 + wave2) * (1/2) * ripple
  let noise := P.sin ((fc : ℚ) * (1/10) + rx * ry * 100) * (1/10)
  rgbBytes (r + noise) (g + noise) (b + noise)

/-- The full payload written by the generation loop (lines 91-131):
rows in order `y = 0..h-1`, within a row pixels `x = 0..w-1`, each pixel
contributing its three channel bytes at consecutive indices. -/
def generatePayload (P : MathPrims) (w h : ℕ) (t angle : ℚ) (fc : ℤ) :
    List ℕ :=
  ((List.range h).map (fun y =>
    ((List.range w).map (fun x =>
      let p := pixelBytes P w h t angle fc x y
      [p.1, p.2.1, p.2.2])).flatten)).flatten

/-- The generator `MyApp::generateTextureData` (lines 86-140) as a state
transformer:
reads `time`, `angle`, `frameCounter`, overwrites `textureData` with the
procedural payload and sets `textureNeedsUpdate` to true. -/
def generateTextureData (P : MathPrims) (w h : ℕ) (s : TextureState) :
    TextureState :=
  { s with
    textureData := generatePayload P w h s.time s.angle s.frameCounter
    textureNeedsUpdate := true }

/-- The angle update of a primary tick (lines 146-147):
`angle += dt * 90; if (angle >= 360) angle -= 360;`. -/
def stepAngle (angle dt : ℚ) : ℚ :=
  if angle + dt * 90 ≥ 360 then angle + dt * 90 - 360 else angle + dt * 90

/-- The primary branch of `MyApp::onAnimate` (lines 143-154): advance
`time` and `angle`, increment `frameCounter`, and regenerate the texture
when the incremented counter is divisible by 30.  Returns the new state
together with whether `generateTextureData` was invoked on this tick. -/
def producerTick (P : MathPrims) (w h : ℕ) (dt : ℚ) (s : TextureState) :
    TextureState × Bool :=
  let s1 : TextureState :=
    { s with
      time := s.time + dt
      angle := stepAngle s.angle dt
      frameCounter := s.frameCounter + 1 }
  if s1.frameCounter % 30 = 0 then (generateTextureData P w h s1, true)
  else (s1, false)

/-- The change-detection tail of `MyApp::onAnimate` (lines 158-168):
compare the record's `frameCounter` with the static `lastFrameCounter`;
on inequality re-submit the texture (counted as one upload) and remember
the counter, otherwise do nothing.  Returns the new `lastFrameCounter`
and the number of texture uploads performed. -/
def consumerTick (s : TextureState) (lastFrameCounter : ℤ) : ℤ × ℕ :=
  if s.frameCounter ≠ lastFrameCounter then (s.frameCounter, 1)
  else (lastFrameCounter, 0)

/-- The per-tick update `MyApp::onAnimate` (lines 142-169): the primary
branch runs only when
`isPrimary` holds, then every node runs the change detector.  Returns the
new state, the new `lastFrameCounter`, and the upload count. -/
def onAnimate (P : MathPrims) (w h : ℕ) (isPrimary : Bool) (dt : ℚ)
    (s : TextureState) (lastFrameCounter : ℤ) : TextureState × ℤ × ℕ :=
  let s1 := if isPrimary then (producerTick P w h dt s).1 else s
  let c := consumerTick s1 lastFrameCounter
  (s1, c.1, c.2)

/-- The reset operation bound to key '2' (lines 224-229): zero `time`,
`angle` and `frameCounter`, leaving the texture bytes and flag as they
were. -/
def resetSimulation (s : TextureState) : TextureState :=
  { s with time := 0, angle := 0, frameCounter := 0 }

/-- The key handler `MyApp::onKeyDown` (lines 218-237): on the primary
node key '2'
resets the simulation and space forces a regeneration; every other key,
and every key on a secondary node, leaves the state unchanged. -/
def onKeyDown (P : MathPrims) (w h : ℕ) (isPrimary : Bool) (key : Char)
    (s : TextureState) : TextureState :=
  if isPrimary then
    if key = '2' then resetSimulation s
    else if key = ' ' then generateTextureData P w h s
    else s
  else s

/-- The state initialization in `MyApp::onCreate` (lines 75-83): only on
the primary node, zero the scalar fields and flag and generate the
initial texture. -/
def onCreateInit (P : MathPrims) (w h : ℕ) (isPrimary : Bool)
    (s : TextureState) : TextureState :=
  if isPrimary then
    generateTextureData P w h
      { s with time := 0, angle := 0, textureNeedsUpdate := false,
               frameCounter := 0 }
  else s

/-- A concrete instantiation of the math primitives (all functions zero)
used to evaluate the model on closed inputs. -/
def P0 : MathPrims :=
  { sin := fun _ => 0
    cos := fun _ => 0
    sqrt := fun _ => 0
    atan2 := fun _ _ => 0
    pi := 0 }

/-- The per-pixel algorithm as the specification states it (spec 4.1 and
claim C2): normalize to `[-1,1]×[-1,1]`, rotate by the angle converted
from degrees to radians, form the two waves, the radial distance and the
ripple (their sinusoid constants as in the generator, the spec leaves
them symbolic), form `spiral = atan2(ry,rx) + 3*radius - 2*simTime`,
combine `red = wave1 * ripple * (sin(spiral)*0.5+0.5)`,
`green = wave2 * (1 - 0.3*radius)`,
`blue = ((wave1+wave2)/2) * ripple`, add the noise term
`sin(tickCounter*0.1 + rx*ry*100)*0.1` equally to all three channels,
then clamp and quantize. -/
def specPixelBytes (P : MathPrims) (w h : ℕ) (simTime rotationAngle : ℚ)
    (tickCounter : ℤ) (x y : ℕ) : ℕ × ℕ × ℕ :=
  let θ := rotationAngle * P.pi / 180
  let nx : ℚ := ((x : ℚ) / ((w : ℚ) - 1)) * 2 - 1
  let ny : ℚ := ((y : ℚ) / ((h : ℚ) - 1)) * 2 - 1
  let rx := nx * P.cos θ - ny * P.sin θ
  let ry := nx * P.sin θ + ny * P.cos θ
  let wave1 := P.sin (rx * 8 + simTime * 2) * (1/2) + 1/2
  let wave2 := P.cos (ry * 6 + simTime * (3/2)) * (1/2) + 1/2
  let radius := P.sqrt (rx * rx + ry * ry)
  let ripple := P.sin (radius * 10 - simTime * 4) * (1/2) + 1/2
  let spiral := P.atan2 ry rx + 3 * radius - 2 * simTime
  let red := wave1 * ripple * (P.sin spiral * (1/2) + 1/2)
  let green := wave2 * (1 - (3/10) * radius)
  let blue := ((wave1 + wave2) / 2) * ripple
  let noise := P.sin ((tickCounter : ℚ) * (1/10) + rx * ry * 100) * (1/10)
  rgbBytes (red + noise) (green + noise) (blue + noise)

/-! Helper lemmas. -/

/-- The clamped, quantized value of any channel is at most 255. -/
theorem toByte_clamp01_le (v : ℚ) : toByte (clamp01 v) ≤ 255 := by
  unfold toByte clamp01
  have h1 : max 0 (min 1 v) ≤ 1 := by
    apply max_le
    · norm_num
    · exact min_le_left _ _
  have h2 : max 0 (min 1 v) * 255 < 256 := by nlinarith
  have h3 : ⌊max 0 (min 1 v) * 255⌋ < 256 := by
    exact Int.floor_lt.mpr (by exact_mod_cast h2)
  omega

/-- All three components of a clamped-and-quantized pixel are at most 255. -/
theorem rgbBytes_le (r g b : ℚ) :
    (rgbBytes r g b).1 ≤ 255 ∧ (rgbBytes r g b).2.1 ≤ 255 ∧
      (rgbBytes r g b).2.2 ≤ 255 :=
  ⟨toByte_clamp01_le r, toByte_clamp01_le g, toByte_clamp01_le b⟩

/-- Congruence of the clamp-and-quantize step. -/
theorem rgbBytes_congr {r1 r2 g1 g2 b1 b2 : ℚ} (hr : r1 = r2)
    (hg : g1 = g2) (hb : b1 = b2) : rgbBytes r1 g1 b1 = rgbBytes r2 g2 b2 := by
  rw [hr, hg, hb]

/-- Every component of every pixel is at most 255. -/
theorem pixelBytes_le (P : MathPrims) (w h : ℕ) (t angle : ℚ) (fc : ℤ)
    (x y : ℕ) :
    (pixelBytes P w h t angle fc x y).1 ≤ 255 ∧
      (pixelBytes P w h t angle fc x y).2.1 ≤ 255 ∧
      (pixelBytes P w h t angle fc x y).2.2 ≤ 255 := by
  simp only [pixelBytes]
  exact rgbBytes_le _ _ _

/-! Claim theorems. -/

/-- C1: the procedural field generator is deterministic — it reads only
the scalar fields `time`, `angle`, `frameCounter` of the state (with the
dimensions fixed), so any two states agreeing on those fields produce
byte-identical payloads, whatever the other fields hold. -/
theorem generateTextureData_deterministic (P : MathPrims) (w h : ℕ)
    (s1 s2 : TextureState) (ht : s1.time = s2.time)
    (ha : s1.angle = s2.angle) (hf : s1.frameCounter = s2.frameCounter) :
    (generateTextureData P w h s1).textureData =
      (generateTextureData P w h s2).textureData := by
  simp [generateTextureData, ht, ha, hf]

/-- Witness for C1: two concrete states agreeing on the scalars but
differing in payload and flag generate the same bytes. -/
theorem generateTextureData_deterministic_witness :
    (generateTextureData P0 2 2 ⟨1, 2, [], false, 3⟩).textureData =
      (generateTextureData P0 2 2 ⟨1, 2, [9], true, 3⟩).textureData :=
  generateTextureData_deterministic P0 2 2 _ _ rfl rfl rfl

/-- C3: the change detector fires exactly on counter inequality (any
inequality, wraparound included), uploads exactly once when it fires and
does nothing otherwise, and its decision depends only on the counter,
never on the payload bytes. -/
theorem consumerTick_change_detector (s : TextureState) (lastFC : ℤ) :
    ((consumerTick s lastFC).2 = 1 ↔ s.frameCounter ≠ lastFC) ∧
      ((consumerTick s lastFC).2 = 0 ↔ s.frameCounter = lastFC) ∧
      (∀ s' : TextureState, s'.frameCounter = s.frameCounter →
        consumerTick s' lastFC = consumerTick s lastFC) := by
  refine ⟨?_, ?_, ?_⟩
  · unfold consumerTick
    split <;> simp_all
  · unfold consumerTick
    split <;> simp_all
  · intro s' h
    unfold consumerTick
    rw [h]

/-- Witness for C3 at the wraparound pair `2^32 - 1 → 0`: the detector
reports a change and uploads once. -/
theorem consumerTick_change_detector_witness :
    (consumerTick ⟨0, 0, [], false, 0⟩ (2 ^ 32 - 1)).2 = 1 :=
  (consumerTick_change_detector ⟨0, 0, [], false, 0⟩ (2 ^ 32 - 1)).1.mpr
    (by decide)

/-- Counterexample to C4 as stated: a consumer that observes a counter
strictly below the previously observed one (non-increasing) does perform
a downstream update, because the code tests inequality, not increase. -/
theorem consumerTick_decrease_updates :
    (3 : ℤ) ≤ 5 ∧ (consumerTick ⟨0, 0, [], false, 3⟩ 5).2 = 1 := by
  constructor
  · decide
  · rfl

/-- C4 amended: a consumer tick observing a counter equal to the
previously observed value performs no downstream update. -/
theorem consumerTick_equal_noop (s : TextureState) (lastFC : ℤ)
    (h : s.frameCounter = lastFC) : (consumerTick s lastFC).2 = 0 := by
  unfold consumerTick
  simp [h]

/-- Witness for the amended C4. -/
theorem consumerTick_equal_noop_witness :
    (consumerTick ⟨0, 0, [], false, 7⟩ 7).2 = 0 :=
  consumerTick_equal_noop ⟨0, 0, [], false, 7⟩ 7 rfl

/-- C5: after the initial generation, a producer tick invokes the
generator exactly when the just-incremented frame counter is a multiple
of 30 — so the step from 29 to 30 generates, and the steps reaching
31 through 59 do not. -/
theorem producerTick_cadence (P : MathPrims) (w h : ℕ) (dt : ℚ)
    (s : TextureState) :
    (producerTick P w h dt s).2 = true ↔ (s.frameCounter + 1) % 30 = 0 := by
  simp only [producerTick]
  split <;> simp_all

/-- C6: the reset operation zeroes `time`, `angle` and `frameCounter`
from every prior state. -/
theorem resetSimulation_zeroes (s : TextureState) :
    (resetSimulation s).time = 0 ∧ (resetSimulation s).angle = 0 ∧
      (resetSimulation s).frameCounter = 0 :=
  ⟨rfl, rfl, rfl⟩

/-- C9: on a secondary (consumer) node, the per-tick update, the key
handler and the creation-time initialization leave the whole state
record unchanged. -/
theorem secondary_never_mutates (P : MathPrims) (w h : ℕ) (dt : ℚ)
    (s : TextureState) (lastFC : ℤ) (k : Char) :
    (onAnimate P w h false dt s lastFC).1 = s ∧
      onKeyDown P w h false k s = s ∧ onCreateInit P w h false s = s := by
  refine ⟨?_, ?_, ?_⟩
  · simp [onAnimate]
  · simp [onKeyDown]
  · simp [onCreateInit]

/-- C2: the per-pixel computation of the generator agrees with the
algorithm as the specification states it — same normalization, same
degree-to-radian rotation, spiral phase `atan2(ry,rx) + 3*radius -
2*simTime`, channel combination `red = wave1*ripple*(sin(spiral)*0.5+0.5)`,
`green = wave2*(1-0.3*radius)`, `blue = ((wave1+wave2)/2)*ripple`, noise
`sin(tickCounter*0.1 + rx*ry*100)*0.1` added equally to the three
channels before clamping and quantization. -/
theorem pixelBytes_eq_spec (P : MathPrims) (w h : ℕ) (t angle : ℚ)
    (fc : ℤ) (x y : ℕ) :
    pixelBytes P w h t angle fc x y = specPixelBytes P w h t angle fc x y := by
  simp only [pixelBytes, specPixelBytes]
  apply rgbBytes_congr <;> ring_nf

/-- C7: every byte of every generated payload lies in `[0, 255]`, for all
scalar inputs and all values of the math primitives (the clamp guarantees
it regardless of the magnitudes involved). -/
theorem generatePayload_bytes_le (P : MathPrims) (w h : ℕ) (t angle : ℚ)
    (fc : ℤ) (b : ℕ) (hb : b ∈ generatePayload P w h t angle fc) :
    b ≤ 255 := by
  simp only [generatePayload, List.mem_flatten, List.mem_map] at hb
  obtain ⟨l, ⟨y, hy, rfl⟩, hb⟩ := hb
  simp only [List.mem_flatten, List.mem_map] at hb
  obtain ⟨l2, ⟨x, hx, rfl⟩, hb⟩ := hb
  simp only [List.mem_cons, List.not_mem_nil, or_false] at hb
  rcases hb with h1 | h1 | h1 <;> subst h1
  · exact (pixelBytes_le P w h t angle fc x y).1
  · exact (pixelBytes_le P w h t angle fc x y).2.1
  · exact (pixelBytes_le P w h t angle fc x y).2.2

/-- Witness for C7: a byte of a concrete payload, bounded by 255. -/
theorem generatePayload_bytes_le_witness :
    (31 : ℕ) ∈ generatePayload P0 1 1 0 0 0 ∧ (31 : ℕ) ≤ 255 := by
  have hp : generatePayload P0 1 1 0 0 0 = [31, 127, 63] := by
    simp only [generatePayload, List.range_succ, List.range_zero,
      List.nil_append, List.map_cons, List.map_nil, List.flatten_cons,
      List.flatten_nil, List.append_nil, pixelBytes, P0, rgbBytes, toByte,
      clamp01]
    norm_num [min_def, max_def]
    decide
  have hmem : (31 : ℕ) ∈ generatePayload P0 1 1 0 0 0 := by
    rw [hp]
    simp
  exact ⟨hmem, generatePayload_bytes_le P0 1 1 0 0 0 31 hmem⟩

/-- Counterexample to C8 as stated: from the in-range angle 0 with
`dt = 8`, the tick adds 720 degrees and the single wrap step subtracts
only 360, leaving 360, which is outside `[0, 360)`. -/
theorem stepAngle_escapes_range :
    (0 : ℚ) ≤ 0 ∧ (0 : ℚ) < 360 ∧ ¬ stepAngle 0 8 < 360 := by
  norm_num [stepAngle]

/-- C8 amended: for a producer tick with `0 ≤ dt` and `dt * 90 < 360`
(one wrap step suffices), an angle in `[0, 360)` stays in `[0, 360)`. -/
theorem stepAngle_wraps (angle dt : ℚ) (h0 : 0 ≤ angle) (h1 : angle < 360)
    (h2 : 0 ≤ dt) (h3 : dt * 90 < 360) :
    0 ≤ stepAngle angle dt ∧ stepAngle angle dt < 360 := by
  unfold stepAngle
  by_cases hc : angle + dt * 90 ≥ 360
  · rw [if_pos hc]
    constructor <;> linarith
  · rw [if_neg hc]
    push_neg at hc
    constructor <;> linarith

/-- Witness for the amended C8. -/
theorem stepAngle_wraps_witness :
    ((0 : ℚ) ≤ 10 ∧ (10 : ℚ) < 360 ∧ (0 : ℚ) ≤ 1 ∧ (1 : ℚ) * 90 < 360) ∧
      0 ≤ stepAngle 10 1 ∧ stepAngle 10 1 < 360 :=
  ⟨by norm_num,
    stepAngle_wraps 10 1 (by norm_num) (by norm_num) (by norm_num)
      (by norm_num)⟩

/-- Length of a generated payload: exactly `w * h * 3` bytes. -/
theorem generatePayload_length (P : MathPrims) (w h : ℕ) (t angle : ℚ)
    (fc : ℤ) : (generatePayload P w h t angle fc).length = texSize w h := by
  simp [generatePayload, texSize, List.length_flatten, Function.comp_def,
    List.map_const']
  ring

/-- C10: every write of the generation loop is in bounds — for
`x < w`, `y < h` and channel `c < 3` the index `(y*w + x)*3 + c` is
below `w*h*3`, and the generated payload has exactly that fixed size. -/
theorem generate_writes_in_bounds (P : MathPrims) (w h : ℕ) (t angle : ℚ)
    (fc : ℤ) (x y c : ℕ) (hx : x < w) (hy : y < h) (hc : c < 3) :
    texIndex w x y + c < texSize w h ∧
      (generatePayload P w h t angle fc).length = texSize w h := by
  constructor
  · unfold texIndex texSize
    have key : y * w + x + 1 ≤ h * w := by
      calc y * w + x + 1 = y * w + (x + 1) := by ring
        _ ≤ y * w + w := Nat.add_le_add_left hx _
        _ = (y + 1) * w := by ring
        _ ≤ h * w := Nat.mul_le_mul_right w hy
    calc (y * w + x) * 3 + c < (y * w + x) * 3 + 3 := Nat.add_lt_add_left hc _
      _ = (y * w + x + 1) * 3 := by ring
      _ ≤ h * w * 3 := Nat.mul_le_mul_right 3 key
      _ = w * h * 3 := by ring
  · exact generatePayload_length P w h t angle fc

/-- Witness for C10. -/
theorem generate_writes_in_bounds_witness :
    ((0 : ℕ) < 1 ∧ (0 : ℕ) < 1 ∧ (2 : ℕ) < 3) ∧
      texIndex 1 0 0 + 2 < texSize 1 1 ∧
        (generatePayload P0 1 1 0 0 0).length = texSize 1 1 :=
  ⟨by decide,
    generate_writes_in_bounds P0 1 1 0 0 0 0 0 2 (by decide) (by decide)
      (by decide)⟩

end AlloSketch
